import Mathlib

/-!
# Verification of the py3status `Module` engine (py3status/module.py)

A shallow embedding of the `Module` class: calling-convention detection
(`_params_type`), universal option validation (`set_module_options`), the
run cycle (`Module.run`), the lifecycle operations (`force_update`, `sleep`,
`wake`) and click dispatch (`Module.click_event`).  Python dicts are
association lists of `PyVal`s, time is an integer read once per operation,
and timers are recorded as the delay they were armed with.
-/

set_option autoImplicit false

/-- A Python value, as far as the engine inspects values: ints, bools and
strings.  `isinstance` checks are modelled on this type. -/
inductive PyVal where
  | int (n : Int)
  | bool (b : Bool)
  | str (s : String)
deriving Repr, DecidableEq

/-- Python `isinstance(v, bool)`. -/
def PyVal.isBool : PyVal → Bool
  | .bool _ => true
  | _ => false

/-- Python `isinstance(v, int)`.  In Python `bool` is a subclass of `int`,
so booleans also pass this check. -/
def PyVal.isInt : PyVal → Bool
  | .int _ => true
  | .bool _ => true
  | _ => false

/-- A Python dict with string keys, as an association list (first match
wins; dicts built by the engine have unique keys). -/
abbrev Dict := List (String × PyVal)

/-- `d[k]` lookup returning `none` when the key is absent. -/
def dictGet : Dict → String → Option PyVal
  | [], _ => Option.none
  | p :: d, k => if p.1 = k then some p.2 else dictGet d k

/-- Python `k in d`. -/
def dictHas (d : Dict) (k : String) : Bool :=
  (dictGet d k).isSome

/-- Python `d[k] = v`: replace the first binding of `k` in place, or append
a new binding at the end. -/
def dictSet : Dict → String → PyVal → Dict
  | [], k, v => [(k, v)]
  | p :: d, k, v => if p.1 = k then (k, v) :: d else p :: dictSet d k v

/-- Python `d.update(e)`: assign every binding of `e` into `d`. -/
def dictUpdate (d e : Dict) : Dict :=
  e.foldl (fun acc p => dictSet acc p.1 p.2) d

/-- The two calling conventions: `Module.PARAMS_NEW` / `Module.PARAMS_LEGACY`. -/
inductive ParamsType where
  | new
  | legacy
deriving Repr, DecidableEq

/-- The result of `inspect.getargspec` on a bound method: the declared
positional parameter names (for a bound method this list includes `self`),
whether a `*args` collector is declared, and whether a `**kwargs` collector
is declared. -/
structure ArgSpec where
  args : List String
  vargs : Bool
  kw : Bool
deriving Repr, DecidableEq

/-- `Module._params_type` (module.py): `none` when the method is absent
(Python `False`); otherwise `new` when the declared parameter count equals
1 (2 for `on_click`, which receives the extra event argument) and there is
no `*args` or `**kwargs`, else `legacy`. -/
def PyModule._params_type (method_name : String) (spec : Option ArgSpec) : Option ParamsType :=
  match spec with
  | Option.none => Option.none
  | some s =>
    let arg_count : Nat := if method_name = "on_click" then 2 else 1
    if s.args.length = arg_count ∧ s.vargs = false ∧ s.kw = false then
      some ParamsType.new
    else
      some ParamsType.legacy

/-- The `align` check in `set_module_options`:
`isinstance(align, str) and align.lower() in ("left", "center", "right")`. -/
def alignOk : PyVal → Bool
  | .str s => s.toLower = "left" ∨ s.toLower = "center" ∨ s.toLower = "right"
  | _ => false

/-- Third stage of `Module.set_module_options`: the `align` option. -/
def setOptionsAlign (mod_config opts : Dict) : Except String Dict :=
  match dictGet mod_config "align" with
  | some v =>
    if alignOk v = false then
      Except.error "invalid align attribute, valid values are: left, center, right"
    else
      Except.ok (dictSet opts "align" v)
  | Option.none => Except.ok opts

/-- Second stage of `Module.set_module_options`: the `separator_block_width`
option. -/
def setOptionsSbw (mod_config opts : Dict) : Except String Dict :=
  match dictGet mod_config "separator_block_width" with
  | some v =>
    if v.isInt = false then
      Except.error "invalid separator_block_width attribute, should be an int"
    else
      setOptionsAlign mod_config (dictSet opts "separator_block_width" v)
  | Option.none => setOptionsAlign mod_config opts

/-- `Module.set_module_options` (module.py): read the four universal options
from the per-module configuration.  `min_width` is copied without any check;
`separator` must be a bool, `separator_block_width` an int, `align` one of
left/center/right (case-insensitively), each raising (`Except.error`)
otherwise. -/
def set_module_options (mod_config : Dict) : Except String Dict :=
  let opts : Dict :=
    match dictGet mod_config "min_width" with
    | some v => dictSet [] "min_width" v
    | Option.none => []
  match dictGet mod_config "separator" with
  | some v =>
    if v.isBool = false then
      Except.error "invalid separator attribute, should be a bool"
    else
      setOptionsSbw mod_config (dictSet opts "separator" v)
  | Option.none => setOptionsSbw mod_config opts

/-- The per-producer record kept in `Module.methods` (the `method_obj`
dict built in `Module.load_methods`). -/
structure MethodObj where
  cached_until : Int
  call_type : Option ParamsType
  inst : Option PyVal
  last_output : Dict
  method : String
  name : Option PyVal
deriving Repr, DecidableEq

/-- The `method_obj` as initialized by `Module.load_methods`: due now, an
empty placeholder output carrying the method name, and unset name/instance. -/
def initMethodObj (t : Int) (ct : Option ParamsType) (method : String) : MethodObj :=
  { cached_until := t
    call_type := ct
    inst := Option.none
    last_output := [("name", PyVal.str method), ("full_text", PyVal.str "")]
    method := method
    name := Option.none }

/-- The mutable state of a `Module` instance (one loaded status unit). -/
structure PyModule where
  cache_time : Option Int
  click_events : Option ParamsType
  has_kill : Option ParamsType
  methods : List (String × MethodObj)
  module_full_name : String
  module_inst : String
  module_name : String
  module_options : Dict
  nagged : Bool
  sleeping : Bool
  timer : Option Int
deriving Repr, DecidableEq

/-- `Module.__init__` followed by method discovery: `cache_time` is unset
(Python `None`), no failure has been nagged about, the module is not
sleeping and no timer is armed.  The name is the first space-separated word
of the config name and the instance qualifier is the rest joined. -/
def PyModule.init (module : String) (methods : List (String × MethodObj))
    (opts : Dict) (click_events has_kill : Option ParamsType) : PyModule :=
  { cache_time := Option.none
    click_events := click_events
    has_kill := has_kill
    methods := methods
    module_full_name := module
    module_inst := String.join (module.splitOn " ").tail
    module_name := (module.splitOn " ").headD ""
    module_options := opts
    nagged := false
    sleeping := false
    timer := Option.none }

/-- Modelled from the spec: the cache-forever sentinel `PY3_CACHE_FOREVER`
is imported from `py3status.py3`, which is not among the sources.  The spec
describes it as a distinguished deadline value compared against computed
deadlines, so it is modelled as a numeric sentinel that no real deadline
(`now + cache duration` with nonnegative times and durations) ever equals. -/
def PY3_CACHE_FOREVER : Int := -1

/-- What a producer invocation returns, as the run cycle discriminates it:
a dict, a `(position, dict)` tuple, a tuple whose second component is not a
dict, some other value, or an exception escaping the call. -/
inductive PyResponse where
  | dict (d : Dict)
  | tuple (pos : PyVal) (d : Dict)
  | tupleBad (pos : PyVal) (v : PyVal)
  | other (v : PyVal)
  | raises
deriving Repr, DecidableEq

/-- The response-shape normalization in `Module.run`: a dict is used as-is,
a `(position, dict)` tuple is unpacked; everything else (including an
exception from the call itself) ends in the exception handler, which this
embedding signals as `none`. -/
def pyResponseDict : PyResponse → Option Dict
  | .dict d => some d
  | .tuple _ d => some d
  | _ => Option.none

/-- One failure report sent to `report_exception`: the failing method and
the `notify_user` escalation flag. -/
structure Report where
  meth : String
  notify_user : Bool
deriving Repr, DecidableEq

/-- The relevant part of the engine configuration: the default cache
duration, the minimum rescheduling interval, and the shared ready flag
(`self.lock.is_set()`), modelled as constant over one run cycle. -/
structure Config where
  cache_timeout : Int
  minimum_interval : Int
  lock : Bool
deriving Repr, DecidableEq

/-- The accumulator threaded through the method loop of `Module.run`:
the minimum candidate deadline (`cache_time`), the updated method objects,
the nagged flag, and the observable effects (methods invoked, failure
reports, fresh-output notifications). -/
structure RunAcc where
  cache_time : Option Int
  methods : List (String × MethodObj)
  nagged : Bool
  invoked : List String
  reports : List Report
  updated : List String
deriving Repr, DecidableEq

/-- `if not cache_time or v < cache_time: cache_time = v` — note that
Python treats both `None` and `0` as falsy here. -/
def trackMin (ct : Option Int) (v : Int) : Option Int :=
  match ct with
  | Option.none => some v
  | some c => if c = 0 then some v else if v < c then some v else some c

/-- Result normalization in `Module.run`: `result['instance']` and
`result['name']` are assigned from the owning module, then the universal
module options are merged in with `result.update(self.module_options)`. -/
def normalizeRecord (mi mn : String) (opts : Dict) (d : Dict) : Dict :=
  dictUpdate (dictSet (dictSet d "instance" (PyVal.str mi)) "name" (PyVal.str mn)) opts

/-- The next deadline chosen for a successfully invoked producer: the
record's explicit `cached_until` when it carries one, otherwise
`now + cache_timeout`. -/
def successCachedUntil (cfg : Config) (t : Int) (mi mn : String) (opts : Dict) (d : Dict) : Int :=
  match dictGet (normalizeRecord mi mn opts d) "cached_until" with
  | some (PyVal.int n) => n
  | _ => t + cfg.cache_timeout

/-- The updated `method_obj` after a successful invocation returning the
record `d`: one-time initialization of its name/instance fields, the new
deadline, and the normalized record stored as `last_output`. -/
def successObj (cfg : Config) (t : Int) (mi mn : String) (opts : Dict)
    (obj : MethodObj) (d : Dict) : MethodObj :=
  let result := normalizeRecord mi mn opts d
  let obj1 :=
    if obj.name = Option.none then
      { obj with
        name := dictGet result "name"
        inst := if dictHas result "instance" then dictGet result "instance"
                else dictGet result "name" }
    else obj
  { obj1 with
    cached_until := successCachedUntil cfg t mi mn opts d
    last_output := result }

/-- One iteration of the method loop in `Module.run`: skip a producer whose
deadline is in the future (tracking it as a candidate next deadline),
otherwise invoke it; an exception or a record without `full_text` is
reported (escalated only if not yet nagged) and leaves the method object
untouched, while a success stores the normalized record, advances the
deadline and notifies the aggregator. -/
def processMethod (cfg : Config) (beh : String → PyResponse) (t : Int)
    (mi mn : String) (opts : Dict) (acc : RunAcc) (e : String × MethodObj) : RunAcc :=
  if t < e.2.cached_until then
    { acc with
      cache_time := trackMin acc.cache_time e.2.cached_until
      methods := acc.methods ++ [e] }
  else
    match pyResponseDict (beh e.1) with
    | Option.none =>
      { acc with
        methods := acc.methods ++ [e]
        invoked := acc.invoked ++ [e.1]
        reports := acc.reports ++ [{ meth := e.1, notify_user := !acc.nagged }]
        nagged := true }
    | some result =>
      if dictHas result "full_text" = false then
        { acc with
          methods := acc.methods ++ [e]
          invoked := acc.invoked ++ [e.1]
          reports := acc.reports ++ [{ meth := e.1, notify_user := !acc.nagged }]
          nagged := true }
      else
        { acc with
          cache_time := trackMin acc.cache_time (successCachedUntil cfg t mi mn opts result)
          methods := acc.methods ++ [(e.1, successObj cfg t mi mn opts e.2 result)]
          invoked := acc.invoked ++ [e.1]
          updated := acc.updated ++ [e.1] }

/-- The method loop of `Module.run` over all discovered producers in
discovery order. -/
def runAcc (cfg : Config) (beh : String → PyResponse) (t : Int) (m : PyModule) : RunAcc :=
  List.foldl (processMethod cfg beh t m.module_inst m.module_name m.module_options)
    { cache_time := Option.none, methods := [], nagged := m.nagged,
      invoked := [], reports := [], updated := [] }
    m.methods

/-- The module deadline computed at the end of a run cycle: the minimum
candidate tracked by the loop, or `now + cache_timeout` when the loop
tracked none (`if cache_time is None`). -/
def runCacheTime (cfg : Config) (beh : String → PyResponse) (t : Int) (m : PyModule) : Int :=
  match (runAcc cfg beh t m).cache_time with
  | Option.none => t + cfg.cache_timeout
  | some c => c

/-- The outcome of one call to `Module.run`: the new module state plus the
observable effects of the cycle. -/
structure RunResult where
  state : PyModule
  invoked : List String
  reports : List Report
  updated : List String
deriving Repr, DecidableEq

/-- `Module.run` (module.py): cancel any pending timer; when the shared
ready flag is set, execute every due producer, store the aggregate deadline
in `self.cache_time`, and unless that deadline is the cache-forever
sentinel or the module is sleeping, arm a timer for
`max(cache_time - now, minimum_interval)`. -/
def PyModule.run (cfg : Config) (beh : String → PyResponse) (t : Int) (m : PyModule) : RunResult :=
  if cfg.lock = true then
    let acc := runAcc cfg beh t m
    let ct := runCacheTime cfg beh t m
    { state :=
        { m with
          methods := acc.methods
          nagged := acc.nagged
          cache_time := some ct
          timer :=
            if ct = PY3_CACHE_FOREVER then Option.none
            else if m.sleeping = false then some (max (ct - t) cfg.minimum_interval)
            else Option.none }
      invoked := acc.invoked
      reports := acc.reports
      updated := acc.updated }
  else
    { state := { m with timer := Option.none }
      invoked := [], reports := [], updated := [] }

/-- `Module.force_update`: reset every producer deadline to now, cancel any
pending timer and start an immediate (zero-delay) run. -/
def PyModule.force_update (t : Int) (m : PyModule) : PyModule :=
  { m with
    methods := m.methods.map (fun e => (e.1, { e.2 with cached_until := t }))
    timer := some 0 }

/-- `Module.sleep`: set the sleeping flag and cancel any pending timer;
no cached deadline is touched. -/
def PyModule.sleep (m : PyModule) : PyModule :=
  { m with sleeping := true, timer := Option.none }

/-- `Module.wake`: clear the sleeping flag; when the stored deadline is the
cache-forever sentinel do nothing more; otherwise arm a timer for
`max(cache_time - now, 0)`.  When no run cycle has stored a deadline yet
(`cache_time` is Python `None`), the subtraction raises a `TypeError`,
modelled as `Except.error`. -/
def PyModule.wake (t : Int) (m : PyModule) : Except String PyModule :=
  let m1 := { m with sleeping := false }
  if m1.cache_time = some PY3_CACHE_FOREVER then
    Except.ok m1
  else
    match m1.cache_time with
    | Option.none =>
      Except.error "TypeError: unsupported operand types for -: NoneType and float"
    | some c => Except.ok { m1 with timer := some (max (c - t) 0) }

/-- How the click handler was called: the new convention passes the event
only, the legacy convention passes the current bar output, the general
configuration and the event, in that order. -/
inductive ClickCall where
  | newStyle (ev : PyVal)
  | legacyStyle (json_list : PyVal) (general : PyVal) (ev : PyVal)
deriving Repr, DecidableEq

/-- The outcome of `Module.click_event`: the handler calls made, whether
the fresh-output notification (`set_updated`) was emitted, and the failure
reports sent. -/
structure ClickResult where
  calls : List ClickCall
  updated : Bool
  reports : List String
deriving Repr, DecidableEq

/-- `Module.click_event` (module.py): look up `on_click` (a missing handler
raises inside the `try` and is reported), call it with the arguments of its
detected convention, then `set_updated`; the whole body is wrapped in a
`try/except` that reports any exception instead of propagating it.  Since
`set_updated` is executed after the handler inside the `try`, a raising
handler suppresses the notification. -/
def PyModule.click_event (m : PyModule) (hasHandler handlerRaises : Bool)
    (json_list general ev : PyVal) : ClickResult :=
  if hasHandler = false then
    { calls := [], updated := false, reports := ["on_click event failed"] }
  else
    let call :=
      if m.click_events = some ParamsType.new then ClickCall.newStyle ev
      else ClickCall.legacyStyle json_list general ev
    if handlerRaises then
      { calls := [call], updated := false, reports := ["on_click event failed"] }
    else
      { calls := [call], updated := true, reports := [] }

/-- Specification view of one loop iteration: how a single method entry is
transformed by the run cycle, independently of the accumulator. -/
def stepEntry (cfg : Config) (beh : String → PyResponse) (t : Int)
    (mi mn : String) (opts : Dict) (e : String × MethodObj) : String × MethodObj :=
  if t < e.2.cached_until then e
  else
    match pyResponseDict (beh e.1) with
    | Option.none => e
    | some result =>
      if dictHas result "full_text" = false then e
      else (e.1, successObj cfg t mi mn opts e.2 result)

/-- Whether invoking a producer ends in the exception handler: the call
raised, the response had the wrong shape, or the record lacks `full_text`. -/
def responseFails (beh : String → PyResponse) (meth : String) : Bool :=
  match pyResponseDict (beh meth) with
  | Option.none => true
  | some r => !(dictHas r "full_text")

/-- Whether this cycle both invokes the producer (it is due) and the
invocation fails. -/
def entryFails (beh : String → PyResponse) (t : Int) (e : String × MethodObj) : Bool :=
  if t < e.2.cached_until then false else responseFails beh e.1

/-- The names of the methods that are due (hence invoked) this cycle, in
discovery order. -/
def dueNames (t : Int) : List (String × MethodObj) → List String
  | [] => []
  | e :: ms =>
    if t < e.2.cached_until then dueNames t ms else e.1 :: dueNames t ms

/-- Whether any method fails this cycle. -/
def anyFails (beh : String → PyResponse) (t : Int) : List (String × MethodObj) → Bool
  | [] => false
  | e :: ms => entryFails beh t e || anyFails beh t ms

/-- The failure reports of one cycle, given the nagged flag at cycle start:
each failing method is reported, escalated only when no failure was
reported before it since the flag was last false. -/
def reportsFrom (beh : String → PyResponse) (t : Int) (nag : Bool) :
    List (String × MethodObj) → List Report
  | [] => []
  | e :: ms =>
    if entryFails beh t e then
      { meth := e.1, notify_user := !nag } :: reportsFrom beh t true ms
    else
      reportsFrom beh t nag ms

/-- An engine configuration used by the concrete scenarios: default cache
duration 5, minimum interval 1, ready flag set. -/
def cfg0 : Config := { cache_timeout := 5, minimum_interval := 1, lock := true }

/-- A producer behavior whose invocation always raises. -/
def behFail : String → PyResponse := fun _ => PyResponse.raises

/-- A producer behavior returning a well-formed record with no explicit
deadline. -/
def behOk : String → PyResponse :=
  fun _ => PyResponse.dict [("full_text", PyVal.str "ok")]

/-- A producer behavior returning a record whose explicit deadline is the
cache-forever sentinel. -/
def behForever : String → PyResponse :=
  fun _ => PyResponse.dict [("full_text", PyVal.str "x"),
                            ("cached_until", PyVal.int PY3_CACHE_FOREVER)]

/-- A single freshly discovered producer named `u`, due at time 0. -/
def objU : MethodObj := initMethodObj 0 (some ParamsType.new) "u"

/-- A module with the single producer `u`, as loaded at time 0. -/
def m0 : PyModule :=
  { cache_time := Option.none
    click_events := Option.none
    has_kill := Option.none
    methods := [("u", objU)]
    module_full_name := "mod"
    module_inst := ""
    module_name := "mod"
    module_options := []
    nagged := false
    sleeping := false
    timer := Option.none }

/-- An engine configuration with default cache duration 60. -/
def cfg5 : Config := { cache_timeout := 60, minimum_interval := 1, lock := true }

/-- Producer `a`, due at time 0. -/
def objA : MethodObj := initMethodObj 0 (some ParamsType.new) "a"

/-- Producer `b`, due at time 20. -/
def objB : MethodObj := initMethodObj 20 (some ParamsType.new) "b"

/-- A behavior where producer `a` raises and every other producer returns a
well-formed record. -/
def behAB : String → PyResponse :=
  fun s => if s = "a" then PyResponse.raises
           else PyResponse.dict [("full_text", PyVal.str "b")]

/-- A module with two producers: `a` (due at 0) and `b` (due at 20). -/
def m5 : PyModule :=
  { m0 with methods := [("a", objA), ("b", objB)] }

/-- A module whose click handler was detected as new-convention. -/
def m6 : PyModule := { m0 with click_events := some ParamsType.new }

/-- A record a producer might return, explicitly supplying its own `name`
and `instance` fields. -/
def rec9 : Dict :=
  [("full_text", PyVal.str "x"), ("name", PyVal.str "custom"),
   ("instance", PyVal.str "ci")]

/-- A behavior returning `rec9` for every producer. -/
def beh9 : String → PyResponse := fun _ => PyResponse.dict rec9

/-- A module with a nonempty instance qualifier `i0`. -/
def m9 : PyModule := { m0 with module_inst := "i0" }

/-- A module whose last run stored the aggregate deadline 7. -/
def m8 : PyModule := { m0 with cache_time := some 7 }

/-- The expected escalation flags for `n` failure reports in one cycle,
given the nagged flag at cycle start: the first report is escalated exactly
when the module had not nagged yet, and every later report is not. -/
def escalFlags (nag : Bool) : Nat → List Bool
  | 0 => []
  | n + 1 => (!nag) :: List.replicate n false

theorem dictGet_dictSet_self (d : Dict) (k : String) (v : PyVal) :
    dictGet (dictSet d k v) k = some v := by
  induction d with
  | nil => simp [dictSet, dictGet]
  | cons p d ih =>
    by_cases h : p.1 = k
    · simp [dictSet, dictGet, h]
    · simp [dictSet, dictGet, h, ih]

theorem dictGet_dictSet_ne (d : Dict) (k k2 : String) (v : PyVal) (h : k2 ≠ k) :
    dictGet (dictSet d k2 v) k = dictGet d k := by
  induction d with
  | nil => simp [dictSet, dictGet, h]
  | cons p d ih =>
    by_cases hp : p.1 = k2
    · simp [dictSet, dictGet, hp, h]
    · simp [dictSet, dictGet, hp, ih]

theorem dictGet_dictUpdate_not_has (d e : Dict) (k : String)
    (h : dictHas e k = false) : dictGet (dictUpdate d e) k = dictGet d k := by
  induction e generalizing d with
  | nil => simp [dictUpdate]
  | cons p e ih =>
    have h1 : p.1 ≠ k := by
      intro hk
      simp [dictHas, dictGet, hk] at h
    have h2 : dictHas e k = false := by
      simp [dictHas, dictGet, h1] at h
      simp [dictHas, h]
    have : dictUpdate d (p :: e) = dictUpdate (dictSet d p.1 p.2) e := by
      simp [dictUpdate, List.foldl]
    rw [this, ih _ h2, dictGet_dictSet_ne _ _ _ _ h1]

theorem processMethod_methods (cfg : Config) (beh : String → PyResponse) (t : Int)
    (mi mn : String) (opts : Dict) (acc : RunAcc) (e : String × MethodObj) :
    (processMethod cfg beh t mi mn opts acc e).methods
      = acc.methods ++ [stepEntry cfg beh t mi mn opts e] := by
  by_cases h1 : t < e.2.cached_until
  · simp [processMethod, stepEntry, h1]
  · cases h2 : pyResponseDict (beh e.1) with
    | none => simp [processMethod, stepEntry, h1, h2]
    | some result =>
      by_cases h3 : dictHas result "full_text" = false <;>
        simp [processMethod, stepEntry, h1, h2, h3]

theorem processMethod_invoked (cfg : Config) (beh : String → PyResponse) (t : Int)
    (mi mn : String) (opts : Dict) (acc : RunAcc) (e : String × MethodObj) :
    (processMethod cfg beh t mi mn opts acc e).invoked
      = acc.invoked ++ (if t < e.2.cached_until then [] else [e.1]) := by
  by_cases h1 : t < e.2.cached_until
  · simp [processMethod, h1]
  · cases h2 : pyResponseDict (beh e.1) with
    | none => simp [processMethod, h1, h2]
    | some result =>
      by_cases h3 : dictHas result "full_text" = false <;>
        simp [processMethod, h1, h2, h3]

theorem processMethod_nagged (cfg : Config) (beh : String → PyResponse) (t : Int)
    (mi mn : String) (opts : Dict) (acc : RunAcc) (e : String × MethodObj) :
    (processMethod cfg beh t mi mn opts acc e).nagged
      = (acc.nagged || entryFails beh t e) := by
  by_cases h1 : t < e.2.cached_until
  · simp [processMethod, entryFails, h1]
  · cases h2 : pyResponseDict (beh e.1) with
    | none => simp [processMethod, entryFails, responseFails, h1, h2]
    | some result =>
      by_cases h3 : dictHas result "full_text" = false <;>
        simp [processMethod, entryFails, responseFails, h1, h2, h3]

theorem processMethod_reports (cfg : Config) (beh : String → PyResponse) (t : Int)
    (mi mn : String) (opts : Dict) (acc : RunAcc) (e : String × MethodObj) :
    (processMethod cfg beh t mi mn opts acc e).reports
      = acc.reports ++ (if entryFails beh t e then
          [{ meth := e.1, notify_user := !acc.nagged }] else []) := by
  by_cases h1 : t < e.2.cached_until
  · simp [processMethod, entryFails, h1]
  · cases h2 : pyResponseDict (beh e.1) with
    | none => simp [processMethod, entryFails, responseFails, h1, h2]
    | some result =>
      by_cases h3 : dictHas result "full_text" = false <;>
        simp [processMethod, entryFails, responseFails, h1, h2, h3]

theorem processMethod_cache_time_fail (cfg : Config) (beh : String → PyResponse) (t : Int)
    (mi mn : String) (opts : Dict) (acc : RunAcc) (e : String × MethodObj)
    (hf : entryFails beh t e = true) :
    (processMethod cfg beh t mi mn opts acc e).cache_time = acc.cache_time := by
  by_cases h1 : t < e.2.cached_until
  · simp [entryFails, h1] at hf
  · simp only [entryFails, if_neg h1, responseFails] at hf
    cases h2 : pyResponseDict (beh e.1) with
    | none => simp [processMethod, h1, h2]
    | some result =>
      rw [h2] at hf
      simp only [Bool.not_eq_true'] at hf
      simp [processMethod, h1, h2, hf]

theorem foldl_methods (cfg : Config) (beh : String → PyResponse) (t : Int)
    (mi mn : String) (opts : Dict) (ms : List (String × MethodObj)) (acc : RunAcc) :
    (List.foldl (processMethod cfg beh t mi mn opts) acc ms).methods
      = acc.methods ++ ms.map (stepEntry cfg beh t mi mn opts) := by
  induction ms generalizing acc with
  | nil => simp
  | cons e ms ih =>
    simp [List.foldl, ih, processMethod_methods]

theorem foldl_invoked (cfg : Config) (beh : String → PyResponse) (t : Int)
    (mi mn : String) (opts : Dict) (ms : List (String × MethodObj)) (acc : RunAcc) :
    (List.foldl (processMethod cfg beh t mi mn opts) acc ms).invoked
      = acc.invoked ++ dueNames t ms := by
  induction ms generalizing acc with
  | nil => simp [dueNames]
  | cons e ms ih =>
    by_cases h1 : t < e.2.cached_until <;>
      simp [List.foldl, ih, processMethod_invoked, dueNames, h1]

theorem foldl_nagged (cfg : Config) (beh : String → PyResponse) (t : Int)
    (mi mn : String) (opts : Dict) (ms : List (String × MethodObj)) (acc : RunAcc) :
    (List.foldl (processMethod cfg beh t mi mn opts) acc ms).nagged
      = (acc.nagged || anyFails beh t ms) := by
  induction ms generalizing acc with
  | nil => simp [anyFails]
  | cons e ms ih =>
    simp [List.foldl, ih, processMethod_nagged, anyFails, Bool.or_assoc]

theorem foldl_reports (cfg : Config) (beh : String → PyResponse) (t : Int)
    (mi mn : String) (opts : Dict) (ms : List (String × MethodObj)) (acc : RunAcc) :
    (List.foldl (processMethod cfg beh t mi mn opts) acc ms).reports
      = acc.reports ++ reportsFrom beh t acc.nagged ms := by
  induction ms generalizing acc with
  | nil => simp [reportsFrom]
  | cons e ms ih =>
    cases hf : entryFails beh t e with
    | false =>
      simp [List.foldl, ih, processMethod_reports, processMethod_nagged,
        reportsFrom, hf]
    | true =>
      cases hn : acc.nagged <;>
        simp [List.foldl, ih, processMethod_reports, processMethod_nagged,
          reportsFrom, hf, hn]

theorem reportsFrom_nagged_all_false (beh : String → PyResponse) (t : Int)
    (ms : List (String × MethodObj)) :
    ∀ r ∈ reportsFrom beh t true ms, r.notify_user = false := by
  induction ms with
  | nil => simp [reportsFrom]
  | cons e ms ih =>
    cases hf : entryFails beh t e with
    | false => simpa [reportsFrom, hf] using ih
    | true =>
      intro r hr
      simp only [reportsFrom, hf, if_true, List.mem_cons] at hr
      rcases hr with hr | hr
      · simp [hr]
      · exact ih r hr

theorem reportsFrom_map_notify (beh : String → PyResponse) (t : Int)
    (ms : List (String × MethodObj)) (nag : Bool) :
    (reportsFrom beh t nag ms).map Report.notify_user
      = escalFlags nag (reportsFrom beh t nag ms).length := by
  induction ms generalizing nag with
  | nil => simp [reportsFrom, escalFlags]
  | cons e ms ih =>
    cases hf : entryFails beh t e with
    | false => simpa [reportsFrom, hf] using ih nag
    | true =>
      simp only [reportsFrom, hf, if_true, List.map_cons, List.length_cons,
        escalFlags, List.cons.injEq, true_and]
      rw [List.eq_replicate_iff]
      refine ⟨by simp, ?_⟩
      intro b hb
      rcases List.mem_map.mp hb with ⟨r, hr, hrb⟩
      rw [← hrb]
      exact reportsFrom_nagged_all_false beh t ms r hr

theorem reportsFrom_eq_nil_iff (beh : String → PyResponse) (t : Int)
    (ms : List (String × MethodObj)) (nag : Bool) :
    (reportsFrom beh t nag ms = [] ↔ anyFails beh t ms = false) := by
  induction ms generalizing nag with
  | nil => simp [reportsFrom, anyFails]
  | cons e ms ih =>
    cases hf : entryFails beh t e with
    | false => simp [reportsFrom, anyFails, hf, ih]
    | true => simp [reportsFrom, anyFails, hf]

theorem nodup_keys_eq {α β : Type} [DecidableEq α] (ms : List (α × β))
    (hn : (ms.map Prod.fst).Nodup) {k : α} {a b : β}
    (ha : (k, a) ∈ ms) (hb : (k, b) ∈ ms) : a = b := by
  induction ms with
  | nil => simp at ha
  | cons e ms ih =>
    simp only [List.map_cons, List.nodup_cons] at hn
    rcases List.mem_cons.mp ha with ha1 | ha1 <;>
      rcases List.mem_cons.mp hb with hb1 | hb1
    · subst ha1
      exact (congrArg Prod.snd hb1).symm
    · subst ha1
      exact absurd (List.mem_map_of_mem Prod.fst hb1) hn.1
    · subst hb1
      exact absurd (List.mem_map_of_mem Prod.fst ha1) hn.1
    · exact ih hn.2 ha1 hb1

theorem mem_dueNames (t : Int) (ms : List (String × MethodObj)) (k : String) :
    k ∈ dueNames t ms ↔ ∃ e ∈ ms, e.1 = k ∧ ¬ t < e.2.cached_until := by
  induction ms with
  | nil => simp [dueNames]
  | cons e ms ih =>
    by_cases h1 : t < e.2.cached_until
    · rw [dueNames, if_pos h1, ih]
      constructor
      · rintro ⟨f, hf, hk, hd⟩
        exact ⟨f, List.mem_cons_of_mem _ hf, hk, hd⟩
      · rintro ⟨f, hf, hk, hd⟩
        rcases List.mem_cons.mp hf with hf1 | hf1
        · exact absurd (hf1 ▸ h1) hd
        · exact ⟨f, hf1, hk, hd⟩
    · rw [dueNames, if_neg h1]
      simp only [List.mem_cons, ih]
      constructor
      · rintro (hk | ⟨f, hf, hk, hd⟩)
        · exact ⟨e, Or.inl rfl, hk.symm, h1⟩
        · exact ⟨f, Or.inr hf, hk, hd⟩
      · rintro ⟨f, hf | hf, hk, hd⟩
        · left
          rw [hf] at hk
          exact hk.symm
        · right
          exact ⟨f, hf, hk, hd⟩

theorem run_not_lock (cfg : Config) (beh : String → PyResponse) (t : Int)
    (m : PyModule) (h : cfg.lock = false) :
    PyModule.run cfg beh t m
      = { state := { m with timer := Option.none },
          invoked := [], reports := [], updated := [] } := by
  simp [PyModule.run, h]

theorem run_state_methods (cfg : Config) (beh : String → PyResponse) (t : Int)
    (m : PyModule) (h : cfg.lock = true) :
    (PyModule.run cfg beh t m).state.methods
      = m.methods.map (stepEntry cfg beh t m.module_inst m.module_name m.module_options) := by
  simp [PyModule.run, h, runAcc, foldl_methods]

theorem run_invoked (cfg : Config) (beh : String → PyResponse) (t : Int)
    (m : PyModule) (h : cfg.lock = true) :
    (PyModule.run cfg beh t m).invoked = dueNames t m.methods := by
  simp [PyModule.run, h, runAcc, foldl_invoked]

theorem run_reports (cfg : Config) (beh : String → PyResponse) (t : Int)
    (m : PyModule) (h : cfg.lock = true) :
    (PyModule.run cfg beh t m).reports = reportsFrom beh t m.nagged m.methods := by
  simp [PyModule.run, h, runAcc, foldl_reports]

theorem run_state_nagged (cfg : Config) (beh : String → PyResponse) (t : Int)
    (m : PyModule) (h : cfg.lock = true) :
    (PyModule.run cfg beh t m).state.nagged
      = (m.nagged || anyFails beh t m.methods) := by
  simp [PyModule.run, h, runAcc, foldl_nagged]

theorem run_state_cache_time (cfg : Config) (beh : String → PyResponse) (t : Int)
    (m : PyModule) (h : cfg.lock = true) :
    (PyModule.run cfg beh t m).state.cache_time = some (runCacheTime cfg beh t m) := by
  simp [PyModule.run, h]

theorem run_state_timer (cfg : Config) (beh : String → PyResponse) (t : Int)
    (m : PyModule) (h : cfg.lock = true) :
    (PyModule.run cfg beh t m).state.timer
      = (if runCacheTime cfg beh t m = PY3_CACHE_FOREVER then Option.none
         else if m.sleeping = false then
           some (max (runCacheTime cfg beh t m - t) cfg.minimum_interval)
         else Option.none) := by
  simp [PyModule.run, h]

theorem stepEntry_not_due (cfg : Config) (beh : String → PyResponse) (t : Int)
    (mi mn : String) (opts : Dict) (e : String × MethodObj)
    (h : t < e.2.cached_until) :
    stepEntry cfg beh t mi mn opts e = e := by
  simp [stepEntry, h]

theorem stepEntry_fails (cfg : Config) (beh : String → PyResponse) (t : Int)
    (mi mn : String) (opts : Dict) (e : String × MethodObj)
    (hf : entryFails beh t e = true) :
    stepEntry cfg beh t mi mn opts e = e := by
  by_cases h1 : t < e.2.cached_until
  · simp [stepEntry, h1]
  · simp only [entryFails, if_neg h1, responseFails] at hf
    cases h2 : pyResponseDict (beh e.1) with
    | none => simp [stepEntry, h1, h2]
    | some result =>
      rw [h2] at hf
      simp only [Bool.not_eq_true'] at hf
      simp [stepEntry, h1, h2, hf]

theorem normalizeRecord_name (mi mn : String) (opts : Dict) (d : Dict)
    (h : dictHas opts "name" = false) :
    dictGet (normalizeRecord mi mn opts d) "name" = some (PyVal.str mn) := by
  unfold normalizeRecord
  rw [dictGet_dictUpdate_not_has _ _ _ h, dictGet_dictSet_self]

theorem normalizeRecord_inst (mi mn : String) (opts : Dict) (d : Dict)
    (h : dictHas opts "instance" = false) :
    dictGet (normalizeRecord mi mn opts d) "instance" = some (PyVal.str mi) := by
  unfold normalizeRecord
  rw [dictGet_dictUpdate_not_has _ _ _ h,
    dictGet_dictSet_ne _ _ _ _ (by decide), dictGet_dictSet_self]

/-- Claim C1: a plain producer or teardown handler whose introspected
parameter list has exactly one entry (the bound self, i.e. no declared
parameter besides self) and no variadic or keyword collector is classified
new convention; for the click handler the rule is offset by one (two
entries: self and the event); any other arity or shape is legacy. -/
theorem params_type_detection : ∀ (method_name : String) (s : ArgSpec),
    (PyModule._params_type method_name (some s) = some ParamsType.new ↔
      s.args.length = (if method_name = "on_click" then 2 else 1)
        ∧ s.vargs = false ∧ s.kw = false)
    ∧ (PyModule._params_type method_name (some s) = some ParamsType.legacy ↔
      ¬(s.args.length = (if method_name = "on_click" then 2 else 1)
        ∧ s.vargs = false ∧ s.kw = false)) := by
  intro method_name s
  unfold PyModule._params_type
  by_cases h : s.args.length = (if method_name = "on_click" then 2 else 1)
      ∧ s.vargs = false ∧ s.kw = false
  · simp [h]
  · simp [h]

/-- Claim C6 (amended): the click handler is invoked with the arguments of
its detected convention (legacy: bar output, general config, event; new:
event only); an exception from the handler is reported and does not
propagate; the fresh-output notification is emitted only when the handler
returns normally — a raising handler suppresses it. -/
theorem click_event_dispatch : ∀ (m : PyModule) (raises : Bool) (jl gc ev : PyVal),
    PyModule.click_event m true raises jl gc ev =
      { calls := [if m.click_events = some ParamsType.new then ClickCall.newStyle ev
                  else ClickCall.legacyStyle jl gc ev],
        updated := !raises,
        reports := if raises then ["on_click event failed"] else [] } := by
  intro m raises jl gc ev
  cases raises <;> rfl

/-- Claim C6 counterexample: a raising click handler is invoked and
reported, but the fresh-output notification is not emitted, contrary to
the claim that it follows regardless of the handler outcome. -/
theorem click_event_notify_cex :
    (PyModule.click_event m6 true true (PyVal.str "jl") (PyVal.str "gc")
        (PyVal.str "ev")).calls = [ClickCall.newStyle (PyVal.str "ev")]
    ∧ (PyModule.click_event m6 true true (PyVal.str "jl") (PyVal.str "gc")
        (PyVal.str "ev")).reports = ["on_click event failed"]
    ∧ (PyModule.click_event m6 true true (PyVal.str "jl") (PyVal.str "gc")
        (PyVal.str "ev")).updated = false := by
  decide

/-- Claim C10: waking a freshly constructed module, before any run cycle
has stored a numeric aggregate deadline, hits the `None - time()` delay
computation and raises a `TypeError` instead of arming a timer. -/
theorem wake_before_first_run_raises :
    ∀ (t : Int) (module : String) (methods : List (String × MethodObj))
      (opts : Dict) (ce hk : Option ParamsType),
    PyModule.wake t (PyModule.init module methods opts ce hk)
      = Except.error "TypeError: unsupported operand types for -: NoneType and float" := by
  intro t module methods opts ce hk
  rfl

/-- Claim C2 (amended): a failure report is escalated (notify_user) exactly
when it is the first failure since the module was constructed: the nagged
flag becomes true with the first report and is never reset — in particular
a successful cycle (no reports) leaves it unchanged, so a failure after an
intervening success is not escalated again. -/
theorem run_failure_escalation :
    ∀ (cfg : Config) (beh : String → PyResponse) (t : Int) (m : PyModule),
    (PyModule.run cfg beh t m).state.nagged
        = (m.nagged || !(PyModule.run cfg beh t m).reports.isEmpty)
    ∧ (PyModule.run cfg beh t m).reports.map Report.notify_user
        = escalFlags m.nagged (PyModule.run cfg beh t m).reports.length := by
  intro cfg beh t m
  by_cases hl : cfg.lock = true
  · rw [run_state_nagged cfg beh t m hl, run_reports cfg beh t m hl]
    refine ⟨?_, reportsFrom_map_notify beh t m.methods m.nagged⟩
    cases hr : reportsFrom beh t m.nagged m.methods with
    | nil =>
      have ha := (reportsFrom_eq_nil_iff beh t m.methods m.nagged).mp hr
      simp [ha]
    | cons r rs =>
      cases ha : anyFails beh t m.methods with
      | false =>
        rw [(reportsFrom_eq_nil_iff beh t m.methods m.nagged).mpr ha] at hr
        exact absurd hr (by simp)
      | true => simp [ha]
  · have hl2 : cfg.lock = false := by simpa using hl
    rw [run_not_lock cfg beh t m hl2]
    simp [escalFlags]

/-- Claim C2 counterexample: with a single producer failing at t = 0,
succeeding at t = 5 and failing again at t = 10, the success in between
does not reset the first-report flag, so the third cycle reports with the
escalation flag false, contrary to the claim that a success makes the next
failure escalate again. -/
theorem run_failure_escalation_cex :
    (PyModule.run cfg0 behFail 0 m0).reports = [{ meth := "u", notify_user := true }]
    ∧ (PyModule.run cfg0 behOk 5 (PyModule.run cfg0 behFail 0 m0).state).updated = ["u"]
    ∧ (PyModule.run cfg0 behOk 5 (PyModule.run cfg0 behFail 0 m0).state).reports = []
    ∧ (PyModule.run cfg0 behFail 10
        (PyModule.run cfg0 behOk 5 (PyModule.run cfg0 behFail 0 m0).state).state).reports
      = [{ meth := "u", notify_user := false }] := by
  decide

/-- Claim C3: when the deadline computed by a run cycle equals the
cache-forever sentinel, no timer is armed (so no automatic run occurs
again); force-update resets every producer deadline to the current time,
arms an immediate zero-delay run, and that run invokes every producer. -/
theorem run_cache_forever_quiescent :
    ∀ (cfg : Config) (beh : String → PyResponse) (t t' : Int) (m : PyModule),
    cfg.lock = true → t ≤ t' →
    ((PyModule.run cfg beh t m).state.cache_time = some PY3_CACHE_FOREVER →
        (PyModule.run cfg beh t m).state.timer = Option.none)
    ∧ (∀ p ∈ (PyModule.force_update t m).methods, p.2.cached_until = t)
    ∧ (PyModule.force_update t m).timer = some 0
    ∧ ∀ p ∈ (PyModule.force_update t m).methods,
        p.1 ∈ (PyModule.run cfg beh t' (PyModule.force_update t m)).invoked := by
  intro cfg beh t t' m hl ht
  refine ⟨?_, ?_, rfl, ?_⟩
  · intro hct
    rw [run_state_cache_time cfg beh t m hl] at hct
    rw [run_state_timer cfg beh t m hl, if_pos (Option.some.inj hct)]
  · intro p hp
    rcases List.mem_map.mp hp with ⟨e, _, hpe⟩
    rw [← hpe]
  · intro p hp
    rw [run_invoked cfg beh t' (PyModule.force_update t m) hl, mem_dueNames]
    refine ⟨p, hp, rfl, ?_⟩
    rcases List.mem_map.mp hp with ⟨e, _, hpe⟩
    rw [← hpe]
    exact not_lt.mpr ht

/-- Claim C3 witness: a producer returning the cache-forever sentinel makes
its cycle arm no timer, and a forced update followed by a run still invokes
it. -/
theorem run_cache_forever_quiescent_witness :
    (PyModule.run cfg0 behForever 0 m0).state.timer = Option.none
    ∧ "u" ∈ (PyModule.run cfg0 behForever 0 (PyModule.force_update 0 m0)).invoked := by
  refine ⟨(run_cache_forever_quiescent cfg0 behForever 0 0 m0 rfl le_rfl).1 (by decide), ?_⟩
  exact (run_cache_forever_quiescent cfg0 behForever 0 0 m0 rfl le_rfl).2.2.2
    ("u", { objU with cached_until := 0 }) (by decide)

/-- Claim C4: a producer whose deadline is strictly in the future when the
run cycle examines it is not invoked, and its method object — deadline and
last output — is carried over unchanged. -/
theorem run_skips_not_due :
    ∀ (cfg : Config) (beh : String → PyResponse) (t : Int) (m : PyModule)
      (meth : String) (obj : MethodObj),
    (m.methods.map Prod.fst).Nodup →
    (meth, obj) ∈ m.methods →
    t < obj.cached_until →
    (meth, obj) ∈ (PyModule.run cfg beh t m).state.methods
    ∧ meth ∉ (PyModule.run cfg beh t m).invoked := by
  intro cfg beh t m meth obj hn hmem hlt
  by_cases hl : cfg.lock = true
  · constructor
    · rw [run_state_methods cfg beh t m hl]
      have hs : stepEntry cfg beh t m.module_inst m.module_name m.module_options
          (meth, obj) = (meth, obj) :=
        stepEntry_not_due _ _ _ _ _ _ _ hlt
      exact hs ▸ List.mem_map_of_mem _ hmem
    · rw [run_invoked cfg beh t m hl, mem_dueNames]
      rintro ⟨e, he, hk, hd⟩
      have he2 : (meth, e.2) ∈ m.methods := by
        rw [← hk]
        exact he
      have := nodup_keys_eq m.methods hn he2 hmem
      rw [this] at hd
      exact hd hlt
  · have hl2 : cfg.lock = false := by simpa using hl
    rw [run_not_lock cfg beh t m hl2]
    exact ⟨hmem, by simp⟩

/-- Claim C4 witness: at time 10 the producer `b` (deadline 20) is kept
unchanged and not invoked. -/
theorem run_skips_not_due_witness :
    ("b", objB) ∈ (PyModule.run cfg5 behAB 10 m5).state.methods
    ∧ "b" ∉ (PyModule.run cfg5 behAB 10 m5).invoked :=
  run_skips_not_due cfg5 behAB 10 m5 "b" objB (by decide) (by decide) (by decide)

/-- Claim C5 (amended): a failing producer has its method object — in
particular its cache deadline — left completely unchanged, and contributes
no candidate to the cycle minimum; when it is the module only producer the
cycle therefore falls back to now plus the default cache duration.  With
other producers present the module next wake follows their deadlines, so
the failing producer can be re-invoked sooner or later than the default
rule. -/
theorem run_failure_keeps_deadline :
    ∀ (cfg : Config) (beh : String → PyResponse) (t : Int) (m : PyModule)
      (meth : String) (obj : MethodObj),
    (meth, obj) ∈ m.methods →
    entryFails beh t (meth, obj) = true →
    (meth, obj) ∈ (PyModule.run cfg beh t m).state.methods
    ∧ (cfg.lock = true → m.methods = [(meth, obj)] →
        (PyModule.run cfg beh t m).state.cache_time
          = some (t + cfg.cache_timeout)) := by
  intro cfg beh t m meth obj hmem hf
  constructor
  · by_cases hl : cfg.lock = true
    · rw [run_state_methods cfg beh t m hl]
      have hs : stepEntry cfg beh t m.module_inst m.module_name m.module_options
          (meth, obj) = (meth, obj) :=
        stepEntry_fails _ _ _ _ _ _ _ hf
      exact hs ▸ List.mem_map_of_mem _ hmem
    · have hl2 : cfg.lock = false := by simpa using hl
      rw [run_not_lock cfg beh t m hl2]
      exact hmem
  · intro hl hms
    rw [run_state_cache_time cfg beh t m hl]
    unfold runCacheTime runAcc
    rw [hms]
    simp only [List.foldl]
    rw [processMethod_cache_time_fail cfg beh t m.module_inst m.module_name
      m.module_options _ _ hf]

/-- Claim C5 witness: a module whose only producer fails at t = 0 stores
the default deadline `0 + cache_timeout` and keeps the producer record
unchanged. -/
theorem run_failure_keeps_deadline_witness :
    ("u", objU) ∈ (PyModule.run cfg0 behFail 0 m0).state.methods
    ∧ (PyModule.run cfg0 behFail 0 m0).state.cache_time
        = some (0 + cfg0.cache_timeout) :=
  ⟨(run_failure_keeps_deadline cfg0 behFail 0 m0 "u" objU (by decide) (by decide)).1,
   (run_failure_keeps_deadline cfg0 behFail 0 m0 "u" objU (by decide) (by decide)).2 rfl rfl⟩

/-- Claim C5 counterexample: with producers `a` (due, failing) and `b`
(deadline 20) and default cache duration 60, the cycle at t = 10 leaves
the deadline of `a` at 0 (not 10 + 60) and arms the timer for t = 20, and
the run at t = 20 invokes `a` again — sooner than the default-cache rule
the claim prescribes. -/
theorem run_failure_reschedule_cex :
    (PyModule.run cfg5 behAB 10 m5).state.methods.map
        (fun e => (e.1, e.2.cached_until)) = [("a", 0), ("b", 20)]
    ∧ (PyModule.run cfg5 behAB 10 m5).state.timer = some 10
    ∧ "a" ∈ (PyModule.run cfg5 behAB 20 (PyModule.run cfg5 behAB 10 m5).state).invoked
    ∧ (20 : Int) < 10 + cfg5.cache_timeout := by
  decide

theorem setOptionsAlign_err (c o : Dict) (v : PyVal)
    (hv : dictGet c "align" = some v) (ha : alignOk v = false) :
    ∃ e, setOptionsAlign c o = Except.error e := by
  refine ⟨"invalid align attribute, valid values are: left, center, right", ?_⟩
  simp [setOptionsAlign, hv, ha]

theorem setOptionsSbw_err_sbw (c o : Dict) (v : PyVal)
    (hv : dictGet c "separator_block_width" = some v) (hi : v.isInt = false) :
    ∃ e, setOptionsSbw c o = Except.error e := by
  refine ⟨"invalid separator_block_width attribute, should be an int", ?_⟩
  simp [setOptionsSbw, hv, hi]

theorem setOptionsSbw_err_align (c o : Dict) (v : PyVal)
    (hv : dictGet c "align" = some v) (ha : alignOk v = false) :
    ∃ e, setOptionsSbw c o = Except.error e := by
  unfold setOptionsSbw
  cases hw : dictGet c "separator_block_width" with
  | none => exact setOptionsAlign_err c o v hv ha
  | some w =>
    by_cases hi : w.isInt = false
    · exact ⟨"invalid separator_block_width attribute, should be an int",
        by simp [hi]⟩
    · simp only [hi, if_false]
      exact setOptionsAlign_err c _ v hv ha

/-- Claim C7 (amended): wrong types for `separator` (non-bool),
`separator_block_width` (non-int) and `align` (not one of left, center,
right) raise a load-time error; `min_width`, however, is copied into the
module options without any type validation — any value is accepted. -/
theorem set_module_options_validation : ∀ (c : Dict) (v : PyVal),
    (dictGet c "separator" = some v → v.isBool = false →
        ∃ e, set_module_options c = Except.error e)
    ∧ (dictGet c "separator_block_width" = some v → v.isInt = false →
        ∃ e, set_module_options c = Except.error e)
    ∧ (dictGet c "align" = some v → alignOk v = false →
        ∃ e, set_module_options c = Except.error e)
    ∧ set_module_options [("min_width", v)] = Except.ok [("min_width", v)] := by
  intro c v
  refine ⟨?_, ?_, ?_, rfl⟩
  · intro hv hb
    refine ⟨"invalid separator attribute, should be a bool", ?_⟩
    simp [set_module_options, hv, hb]
  · intro hv hi
    unfold set_module_options
    cases hs : dictGet c "separator" with
    | none => exact setOptionsSbw_err_sbw c _ v hv hi
    | some w =>
      by_cases hb : w.isBool = false
      · exact ⟨"invalid separator attribute, should be a bool", by simp [hb]⟩
      · simp only [hb, if_false]
        exact setOptionsSbw_err_sbw c _ v hv hi
  · intro hv ha
    unfold set_module_options
    cases hs : dictGet c "separator" with
    | none => exact setOptionsSbw_err_align c _ v hv ha
    | some w =>
      by_cases hb : w.isBool = false
      · exact ⟨"invalid separator attribute, should be a bool", by simp [hb]⟩
      · simp only [hb, if_false]
        exact setOptionsSbw_err_align c _ v hv ha

/-- Claim C7 witness: a non-bool `separator` raises, and an arbitrary
value for `min_width` is accepted unvalidated. -/
theorem set_module_options_validation_witness :
    (∃ e, set_module_options [("separator", PyVal.int 3)] = Except.error e)
    ∧ set_module_options [("min_width", PyVal.int 3)]
        = Except.ok [("min_width", PyVal.int 3)] :=
  ⟨(set_module_options_validation [("separator", PyVal.int 3)] (PyVal.int 3)).1 rfl rfl,
   (set_module_options_validation [("separator", PyVal.int 3)] (PyVal.int 3)).2.2.2⟩

/-- Claim C7 counterexample: a `min_width` of the wrong type (a string) is
accepted silently at load time instead of raising. -/
theorem set_module_options_min_width_cex :
    set_module_options [("min_width", PyVal.str "wide")]
      = Except.ok [("min_width", PyVal.str "wide")] := rfl

/-- Claim C8: sleep sets the sleeping flag and cancels the pending timer
without altering the methods or the stored aggregate deadline; a
subsequent wake at time t, when the stored deadline c is not the
cache-forever sentinel, clears the sleeping flag and arms a timer with
delay `max(c - t, 0)`, using the deadline stored before sleeping. -/
theorem sleep_then_wake : ∀ (m : PyModule) (t c : Int),
    (PyModule.sleep m).sleeping = true
    ∧ (PyModule.sleep m).timer = Option.none
    ∧ (PyModule.sleep m).methods = m.methods
    ∧ (PyModule.sleep m).cache_time = m.cache_time
    ∧ (m.cache_time = some c → c ≠ PY3_CACHE_FOREVER →
        PyModule.wake t (PyModule.sleep m)
          = Except.ok { m with sleeping := false, timer := some (max (c - t) 0) }) := by
  intro m t c
  refine ⟨rfl, rfl, rfl, rfl, ?_⟩
  intro hc hne
  unfold PyModule.wake PyModule.sleep
  simp [hc, hne]

/-- Claim C8 witness: a module whose stored deadline is 7, slept and then
woken at time 3, arms a timer with delay 4. -/
theorem sleep_then_wake_witness :
    PyModule.wake 3 (PyModule.sleep m8)
      = Except.ok { m8 with sleeping := false, timer := some (max ((7 : Int) - 3) 0) } :=
  (sleep_then_wake m8 3 7).2.2.2.2 rfl (by decide)

/-- Claim C9 (amended): the run cycle always overwrites the `name` and
`instance` fields of a successful producer record with the owning module
name and instance qualifier — values the producer supplied for those
fields are discarded, not kept.  Every method object after a cycle is
either carried over unchanged or stores a record whose `name` and
`instance` are the module ones. -/
theorem run_overwrites_name_inst :
    ∀ (cfg : Config) (beh : String → PyResponse) (t : Int) (m : PyModule),
    dictHas m.module_options "name" = false →
    dictHas m.module_options "instance" = false →
    ∀ p ∈ (PyModule.run cfg beh t m).state.methods,
      (∃ obj, (p.1, obj) ∈ m.methods ∧ p.2 = obj)
      ∨ (dictGet p.2.last_output "name" = some (PyVal.str m.module_name)
         ∧ dictGet p.2.last_output "instance" = some (PyVal.str m.module_inst)) := by
  intro cfg beh t m hn hi p hp
  by_cases hl : cfg.lock = true
  · rw [run_state_methods cfg beh t m hl] at hp
    rcases List.mem_map.mp hp with ⟨e, he, hpe⟩
    by_cases h1 : t < e.2.cached_until
    · rw [stepEntry_not_due cfg beh t m.module_inst m.module_name
        m.module_options e h1] at hpe
      rw [← hpe]
      exact Or.inl ⟨e.2, he, rfl⟩
    · cases h2 : pyResponseDict (beh e.1) with
      | none =>
        have hs : stepEntry cfg beh t m.module_inst m.module_name m.module_options e = e := by
          simp [stepEntry, h1, h2]
        rw [hs] at hpe
        rw [← hpe]
        exact Or.inl ⟨e.2, he, rfl⟩
      | some result =>
        by_cases h3 : dictHas result "full_text" = false
        · have hs : stepEntry cfg beh t m.module_inst m.module_name m.module_options e = e := by
            simp [stepEntry, h1, h2, h3]
          rw [hs] at hpe
          rw [← hpe]
          exact Or.inl ⟨e.2, he, rfl⟩
        · have hs : stepEntry cfg beh t m.module_inst m.module_name m.module_options e
              = (e.1, successObj cfg t m.module_inst m.module_name m.module_options e.2 result) := by
            simp [stepEntry, h1, h2, h3]
          rw [hs] at hpe
          rw [← hpe]
          refine Or.inr ⟨?_, ?_⟩
          · exact normalizeRecord_name m.module_inst m.module_name m.module_options result hn
          · exact normalizeRecord_inst m.module_inst m.module_name m.module_options result hi
  · have hl2 : cfg.lock = false := by simpa using hl
    rw [run_not_lock cfg beh t m hl2] at hp
    exact Or.inl ⟨p.2, hp, rfl⟩

/-- Claim C9 witness: after a successful cycle of module `m9` the stored
record carries the module name and instance qualifier. -/
theorem run_overwrites_name_inst_witness :
    (∃ obj, ("u", obj) ∈ m9.methods
        ∧ ("u", successObj cfg0 0 "i0" "mod" [] objU rec9).2 = obj)
    ∨ (dictGet ("u", successObj cfg0 0 "i0" "mod" [] objU rec9).2.last_output "name"
          = some (PyVal.str m9.module_name)
       ∧ dictGet ("u", successObj cfg0 0 "i0" "mod" [] objU rec9).2.last_output "instance"
          = some (PyVal.str m9.module_inst)) :=
  run_overwrites_name_inst cfg0 beh9 0 m9 rfl rfl
    ("u", successObj cfg0 0 "i0" "mod" [] objU rec9) (by decide)

/-- Claim C9 counterexample: the producer record supplies explicit `name`
`"custom"` and `instance` `"ci"`, but after the run cycle the stored
record carries the module `name` `"mod"` and `instance` `"i0"` — the
producer values are overwritten, not kept. -/
theorem run_backfill_cex :
    dictGet rec9 "name" = some (PyVal.str "custom")
    ∧ dictGet rec9 "instance" = some (PyVal.str "ci")
    ∧ (PyModule.run cfg0 beh9 0 m9).state.methods.map
        (fun e => (dictGet e.2.last_output "name", dictGet e.2.last_output "instance"))
      = [(some (PyVal.str "mod"), some (PyVal.str "i0"))] := by
  decide
